import Mathlib

/-!
Shallow embedding of `src/generate_pptx.py`, a script that builds one fixed
16:9 slide with python-pptx and saves it to disk.

Lengths are modelled as exact rationals measured in EMU (python-pptx's
internal unit): `Inches x = x * 914400`, `Pt x = x * 12700`.  The Python
script does its layout arithmetic on these lengths (ints from `Inches`,
floats after true division); the rational model captures that arithmetic
exactly.  The slide is a list of shape records in insertion order; the
mutating `add_*` helpers of the script become state-passing functions that
append to the list.
-/

/-- Embeds `pptx.util.Inches`: inches to EMU (914400 EMU per inch). -/
def Inches (x : ℚ) : ℚ := x * 914400

/-- Embeds `pptx.util.Pt`: points to EMU (12700 EMU per point). -/
def Pt (x : ℚ) : ℚ := x * 12700

/-- Embeds `pptx.dml.color.RGBColor`. -/
structure RGBColor where
  r : ℕ
  g : ℕ
  b : ℕ
deriving DecidableEq, Repr

def PASTEL_BLUE : RGBColor := ⟨0xA7, 0xD3, 0xF1⟩
def PASTEL_GREEN : RGBColor := ⟨0xBF, 0xE7, 0xC6⟩
def TEXT_DARK : RGBColor := ⟨0x22, 0x22, 0x22⟩
def LINE_LIGHT : RGBColor := ⟨0xCC, 0xCC, 0xCC⟩

/-- A text run with the font attributes `set_run` assigns
(`run.font.size` is stored in EMU, as python-pptx does). -/
structure Run where
  text : String
  size : ℚ
  bold : Bool
  color : RGBColor
  font : String
deriving DecidableEq, Repr

/-- Paragraph alignment; the script only ever sets `PP_ALIGN.CENTER`. -/
inductive Align where
  | center
deriving DecidableEq, Repr

/-- A paragraph of a text frame: indent level, `space_after` (EMU, `none`
when never assigned), optional alignment, and its runs in order. -/
structure Paragraph where
  level : ℕ
  space_after : Option ℚ
  alignment : Option Align
  runs : List Run
deriving DecidableEq, Repr

/-- The single empty paragraph a text frame holds after `tf.clear()`
(also the state of a fresh textbox's frame). -/
def defaultParagraph : Paragraph :=
  { level := 0, space_after := none, alignment := none, runs := [] }

/-- A shape's text frame: `word_wrap` (`none` when never assigned) and
its paragraphs. -/
structure TextFrame where
  word_wrap : Option Bool
  paragraphs : List Paragraph
deriving DecidableEq, Repr

/-- The two `MSO_SHAPE` autoshape types the script uses. -/
inductive AutoShapeType where
  | roundedRectangle
  | rectangle
deriving DecidableEq, Repr

/-- Whether a shape came from `add_shape` (an autoshape) or `add_textbox`. -/
inductive ShapeKind where
  | autoShape (t : AutoShapeType)
  | textbox
deriving DecidableEq, Repr

/-- One shape of the slide's shape tree: kind, position and size (EMU),
solid fill color (`none` when the fill was never set), whether
`line.fill.background()` was applied (no border line), and its text frame. -/
structure Shape where
  kind : ShapeKind
  left : ℚ
  top : ℚ
  width : ℚ
  height : ℚ
  fill : Option RGBColor
  line_background : Bool
  tf : TextFrame
deriving DecidableEq, Repr

/-- A slide is its shape tree in insertion order (the blank layout used by
`main` starts with no shapes). -/
abbrev Slide := List Shape

/-- Helper `set_run(run, text, size, bold, color, name)`: builds the run record the
Python helper writes into a fresh run. -/
def set_run (text : String) (size : ℚ) (bold : Bool) (color : RGBColor)
    (font : String) : Run :=
  { text := text, size := Pt size, bold := bold, color := color, font := font }

/-- The rounded-rectangle shape `add_badge` constructs: solid fill,
borderless line, one centered paragraph with a single bold 18pt run. -/
def badgeShape (text : String) (left top width height : ℚ)
    (fill_color : RGBColor) : Shape :=
  { kind := .autoShape .roundedRectangle
    left := left, top := top, width := width, height := height
    fill := some fill_color
    line_background := true
    tf := { word_wrap := none
            paragraphs := [{ level := 0, space_after := none
                             alignment := some .center
                             runs := [set_run text 18 true TEXT_DARK "Segoe UI"] }] } }

/-- Function `add_badge(slide, text, left, top, width, height, fill_color)`:
appends one badge shape to the slide. -/
def add_badge (slide : Slide) (text : String) (left top width height : ℚ)
    (fill_color : RGBColor) : Slide :=
  slide ++ [badgeShape text left top width height fill_color]

/-- A section passed to `add_bullets`: `{"title": ..., "subs": [...]}`. -/
structure Section where
  title : String
  subs : List String
deriving DecidableEq, Repr

/-- The level-0 title paragraph `add_bullets` builds for a section. -/
def titlePara (t : String) : Paragraph :=
  { level := 0, space_after := some (Pt 4), alignment := none
    runs := [set_run t 18 true TEXT_DARK "Segoe UI"] }

/-- The level-1 sub-item paragraph `add_bullets` builds. -/
def subPara (s : String) : Paragraph :=
  { level := 1, space_after := some (Pt 2), alignment := none
    runs := [set_run s 14 false TEXT_DARK "Segoe UI"] }

/-- The paragraph list of the `add_bullets` textbox.  After `tf.clear()`
the frame holds one empty paragraph; the loop mutates it into the first
section's title paragraph (`tf.paragraphs[0]` when `i == 0`) and appends
all later paragraphs, so an empty section list leaves the single empty
paragraph and a non-empty one yields title/sub paragraphs in order. -/
def bulletsParas (sections : List Section) : List Paragraph :=
  match sections with
  | [] => [defaultParagraph]
  | _ => sections.flatMap (fun sec => titlePara sec.title :: sec.subs.map subPara)

/-- The textbox shape `add_bullets` constructs (word wrap on). -/
def bulletsBox (left top width height : ℚ) (sections : List Section) : Shape :=
  { kind := .textbox
    left := left, top := top, width := width, height := height
    fill := none
    line_background := false
    tf := { word_wrap := some true, paragraphs := bulletsParas sections } }

/-- Function `add_bullets(slide, left, top, width, height, sections)`: appends one
textbox holding the whole outline. -/
def add_bullets (slide : Slide) (left top width height : ℚ)
    (sections : List Section) : Slide :=
  slide ++ [bulletsBox left top width height sections]

/-- A bottom column: `{"badge": ("Label", color), "items": [...]}`. -/
structure Column where
  badgeLabel : String
  badgeColor : RGBColor
  items : List String
deriving DecidableEq, Repr

/-- The level-0 item paragraph of a bottom column, its text prefixed with
the bullet glyph (`f"• {item}"`). -/
def itemPara (item : String) : Paragraph :=
  { level := 0, space_after := some (Pt 2), alignment := none
    runs := [set_run ("• " ++ item) 16 false TEXT_DARK "Segoe UI"] }

/-- Paragraphs of one bottom-column textbox (same `tf.paragraphs[0]` reuse
pattern as `add_bullets`). -/
def columnParas (items : List String) : List Paragraph :=
  match items with
  | [] => [defaultParagraph]
  | _ => items.map itemPara

/-- The fixed inter-column gap of `add_bottom_three_columns`. -/
def bottomGap : ℚ := Inches 0.25

/-- The column width of `add_bottom_three_columns`:
`col_w = (total_width - 2 * gap) / 3` (the divisor is the constant 3). -/
def bottomColW (total_width : ℚ) : ℚ := (total_width - 2 * bottomGap) / 3

/-- The textbox of bottom column `i`, placed `Inches(0.6)` below the
column top with the remaining height. -/
def columnBox (left top total_width height : ℚ) (i : ℕ) (col : Column) : Shape :=
  { kind := .textbox
    left := left + i * (bottomColW total_width + bottomGap)
    top := top + Inches 0.6
    width := bottomColW total_width
    height := height - Inches 0.6
    fill := none
    line_background := false
    tf := { word_wrap := some true, paragraphs := columnParas col.items } }

/-- The badge of bottom column `i`, at `x = left + i*(col_w + gap)`,
height `Inches(0.5)`. -/
def columnBadge (left top total_width : ℚ) (i : ℕ) (col : Column) : Shape :=
  badgeShape col.badgeLabel (left + i * (bottomColW total_width + bottomGap)) top
    (bottomColW total_width) (Inches 0.5) col.badgeColor

/-- The shapes the loop of `add_bottom_three_columns` appends, starting at
loop index `i`: per column a badge (via `add_badge`) then a textbox. -/
def bottomColumnShapes (left top total_width height : ℚ) :
    ℕ → List Column → List Shape
  | _, [] => []
  | i, col :: rest =>
      columnBadge left top total_width i col
        :: columnBox left top total_width height i col
        :: bottomColumnShapes left top total_width height (i + 1) rest

/-- Function `add_bottom_three_columns(slide, left, top, total_width, height, cols)`:
appends a badge and an item textbox per column. -/
def add_bottom_three_columns (slide : Slide) (left top total_width height : ℚ)
    (cols : List Column) : Slide :=
  slide ++ bottomColumnShapes left top total_width height 0 cols

/-- The divider rectangle of `add_divider`: height `Inches(0.02)`, light
fill, borderless.  (A fresh autoshape's frame holds one empty paragraph.) -/
def dividerShape (left top width : ℚ) : Shape :=
  { kind := .autoShape .rectangle
    left := left, top := top, width := width, height := Inches 0.02
    fill := some LINE_LIGHT
    line_background := true
    tf := { word_wrap := none, paragraphs := [defaultParagraph] } }

/-- Function `add_divider(slide, left, top, width)`. -/
def add_divider (slide : Slide) (left top width : ℚ) : Slide :=
  slide ++ [dividerShape left top width]

/-- A presentation: slide size plus the single slide `main` builds. -/
structure Presentation where
  slide_width : ℚ
  slide_height : ℚ
  slide : Slide
deriving DecidableEq, Repr

/-! Layout parameters and literal content of `main`, one definition per
local variable of the Python function. -/

def slide_width : ℚ := Inches 13.333
def slide_height : ℚ := Inches 7.5
def margin : ℚ := Inches 0.5
def content_top : ℚ := Inches 0.9
def column_height : ℚ := Inches 4.6
def col_gap : ℚ := Inches 0.4
def col_width : ℚ := (slide_width - 2 * margin - col_gap) / 2
def left_x : ℚ := margin
def right_x : ℚ := margin + col_width + col_gap
def divider_y : ℚ := content_top + column_height + Inches 0.2
def bottom_top : ℚ := divider_y + Inches 0.2
def bottom_height : ℚ := slide_height - bottom_top - Inches 0.4

def left_sections : List Section :=
  [ { title := "High Recall Focus ✅"
      subs := ["Critical for field deployment to reduce disease spread"] },
    { title := "Modular Architecture 🔄"
      subs := ["Autoencoder and classifier can work independently or together"] },
    { title := "Ease of Data Acquisition 🌱"
      subs := [ "Autoencoder requires few or no diseased images",
                "Classifier trained only on images autoencoder fails to detect" ] } ]

def right_sections : List Section :=
  [ { title := "Autoencoder Limitations ⚠️"
      subs := [ "Weak decoder reduces standalone performance",
                "Normalization may worsen results" ] },
    { title := "Improvement Opportunities 💡"
      subs := [ "Enhanced decoder (skip connections + attention mechanisms)",
                "Robust loss functions and tailored training strategies",
                "Ensemble with classifier for sparse proprietary data" ] } ]

def bottom_cols : List Column :=
  [ { badgeLabel := "Dataset Observations 📸", badgeColor := PASTEL_BLUE
      items := [ "Classifier handles varied conditions (day/night)",
                 "More diseased samples → better performance" ] },
    { badgeLabel := "Model Choice 🏎️", badgeColor := PASTEL_GREEN
      items := [ "Lightweight MobileViT2 outperforms larger models like EfficientNet" ] },
    { badgeLabel := "Takeaway ✔️", badgeColor := PASTEL_BLUE
      items := [ "Lightweight anomaly detector + classifier is optimal for deployment",
                 "Reduces data collection effort and maintains high recall" ] } ]

/-- The slide `main` composes, call by call, starting from the empty blank
layout. -/
def mainSlide : Slide :=
  add_bottom_three_columns
    (add_divider
      (add_bullets
        (add_badge
          (add_bullets
            (add_badge [] "Advantages / Strengths" left_x (Inches 0.3)
              col_width (Inches 0.5) PASTEL_GREEN)
            left_x content_top col_width column_height left_sections)
          "Limitations / Recommendations" right_x (Inches 0.3)
          col_width (Inches 0.5) PASTEL_BLUE)
        right_x content_top col_width column_height right_sections)
      margin divider_y (slide_width - 2 * margin))
    margin bottom_top (slide_width - 2 * margin) bottom_height bottom_cols

/-- The presentation `main` builds (16:9 size set explicitly). -/
def mainPrs : Presentation :=
  { slide_width := slide_width, slide_height := slide_height, slide := mainSlide }

/-- The hardcoded output filename. -/
def out_name : String := "MobileViT2-Anomaly-Detector-Key-Insights.pptx"

/-- Observable process effects of `main`: the one `prs.save(out_name)` call
and the confirmation `print`. -/
inductive Effect where
  | save (fname : String)
  | print (s : String)
deriving DecidableEq, Repr

/-- Returns `true` for a `save` effect. -/
def isSave : Effect → Bool
  | .save _ => true
  | .print _ => false

/-- Modelled from the spec: the process-level exit behavior of running
`main` is not code under `src/` (it is the Python runtime's convention,
described in the spec's exit-behavior section).  `main` itself contains no
exception handler, so when the serialization collaborator's save succeeds
the process performs the save, prints the confirmation line and exits 0;
when the save raises, the failure propagates uncaught and the process exits
non-zero with no confirmation printed.  The effect list plus exit status of
one run: -/
def mainProcess (saveOk : Bool) : List Effect × ℕ :=
  if saveOk then
    ([Effect.save out_name, Effect.print ("Saved: " ++ out_name)], 0)
  else
    ([Effect.save out_name], 1)

/-- The ambient process environment a Python process could observe:
command-line arguments, environment variables, a randomness seed. -/
structure Env where
  argv : List String
  environ : List (String × String)
  seed : ℕ

/-- Runs `main()` as a function of the ambient environment.  The Python body
reads no `sys.argv`, no environment variable and no randomness, so the
environment is never consulted: the run is the fixed presentation plus the
fixed effect trace. -/
def mainRun (_env : Env) : Presentation × List Effect :=
  (mainPrs, (mainProcess true).1)

/-- An x-interval region produced by column splitting (`y`/height are
carried through unchanged by the splitter, so only `x` and `width` vary). -/
structure Region where
  x : ℚ
  width : ℚ
deriving DecidableEq, Repr

/-- Modelled from the spec: the generic `splitColumns(parentRegion, count,
gap)` of the Grid Allocator (§4.1) is not itself code under `src/`; the
source only instantiates its arithmetic twice, as
`col_w = (total_width - 2*gap)/3` with offsets `i*(col_w + gap)` in
`add_bottom_three_columns` and `col_width = (slide_width - 2*margin -
col_gap)/2` in `main`.  Generalizing that arithmetic to `n` columns:
column width `(W - (n-1)*gap)/n`, column `i` at `left + i*(col_w + gap)`. -/
def splitColumns (left W : ℚ) (n : ℕ) (gap : ℚ) : List Region :=
  let col_w := (W - (n - 1 : ℕ) * gap) / n
  (List.range n).map
    (fun i : ℕ => { x := left + (i : ℚ) * (col_w + gap), width := col_w })

/-- Returns `true` for a badge (rounded-rectangle autoshape). -/
def isBadge (s : Shape) : Bool :=
  match s.kind with
  | .autoShape .roundedRectangle => true
  | _ => false

/-- Returns `true` for any autoshape (badge or divider). -/
def isAutoShape (s : Shape) : Bool :=
  match s.kind with
  | .autoShape _ => true
  | .textbox => false

/-- Returns `true` for a textbox. -/
def isTextbox (s : Shape) : Bool :=
  match s.kind with
  | .autoShape _ => false
  | .textbox => true

/-- The `(left, width)` horizontal extents of the badges of a shape list. -/
def badgeRects (shapes : List Shape) : List (ℚ × ℚ) :=
  (shapes.filter isBadge).map (fun s => (s.left, s.width))

/-- Collects `(level, text)` of every run of a paragraph list, in document order. -/
def flatRuns (ps : List Paragraph) : List (ℕ × String) :=
  ps.flatMap (fun p => p.runs.map (fun r => (p.level, r.text)))

/-- Bundles the Grid Allocator properties of §4.1/§8 for one accepted call:
`n` regions, all of the computed equal width, widths summing with the
`n-1` gaps to exactly `W`, pairwise non-overlapping left to right, every
region inside the parent's x-span, and regions touching both the left and
the right edge of the parent (the union spans the parent). -/
def splitColumnsOk (left W : ℚ) (n : ℕ) (gap : ℚ) : Prop :=
  (splitColumns left W n gap).length = n ∧
  (∀ r ∈ splitColumns left W n gap,
      r.width = (W - (n - 1 : ℕ) * gap) / n) ∧
  ((splitColumns left W n gap).map Region.width).sum + (n - 1 : ℕ) * gap = W ∧
  (splitColumns left W n gap).Pairwise (fun a b => a.x + a.width ≤ b.x) ∧
  (∀ r ∈ splitColumns left W n gap, left ≤ r.x ∧ r.x + r.width ≤ left + W) ∧
  (∃ r ∈ splitColumns left W n gap, r.x = left) ∧
  (∃ r ∈ splitColumns left W n gap, r.x + r.width = left + W)

/-- Concrete column triple used to exhibit the behavior of
`add_bottom_three_columns` on a degenerate total width. -/
def cexCols : List Column :=
  [ { badgeLabel := "A", badgeColor := PASTEL_BLUE, items := [] },
    { badgeLabel := "B", badgeColor := PASTEL_GREEN, items := [] },
    { badgeLabel := "C", badgeColor := PASTEL_BLUE, items := [] } ]

theorem flatRuns_append (ps qs : List Paragraph) :
    flatRuns (ps ++ qs) = flatRuns ps ++ flatRuns qs := by
  simp [flatRuns]

theorem bottomColumnShapes_length (l t W h : ℚ) (cols : List Column) :
    ∀ i : ℕ, (bottomColumnShapes l t W h i cols).length = 2 * cols.length := by
  induction cols with
  | nil => intro i; simp [bottomColumnShapes]
  | cons c rest ih =>
      intro i
      simp [bottomColumnShapes, ih (i + 1)]
      ring

theorem bottomColumnShapes_width (l t W h : ℚ) (cols : List Column) :
    ∀ i : ℕ, ∀ s ∈ bottomColumnShapes l t W h i cols,
      s.width = bottomColW W := by
  induction cols with
  | nil => intro i s hs; simp [bottomColumnShapes] at hs
  | cons c rest ih =>
      intro i s hs
      simp only [bottomColumnShapes, List.mem_cons] at hs
      rcases hs with rfl | rfl | hs
      · rfl
      · rfl
      · exact ih (i + 1) s hs

/-- C5: every call to `add_badge` appends exactly one shape: a filled
rounded rectangle spanning the given region, with no border line, holding a
single centered, bold, 18pt text run whose text is the label and whose fill
is the given color. -/
theorem add_badge_appends_one_badge (slide : Slide) (text : String)
    (left top width height : ℚ) (fill_color : RGBColor) :
    add_badge slide text left top width height fill_color =
      slide ++
        [{ kind := .autoShape .roundedRectangle
           left := left, top := top, width := width, height := height
           fill := some fill_color
           line_background := true
           tf := { word_wrap := none
                   paragraphs := [{ level := 0, space_after := none
                                    alignment := some Align.center
                                    runs := [{ text := text, size := Pt 18
                                               bold := true, color := TEXT_DARK
                                               font := "Segoe UI" }] }] } }] := rfl

/-- C9: `add_bullets` on an empty section list still appends one textbox,
holding a single empty paragraph and no text runs. -/
theorem add_bullets_empty_sections (slide : Slide) (l t w h : ℚ) :
    add_bullets slide l t w h [] =
      slide ++
        [{ kind := .textbox
           left := l, top := t, width := w, height := h
           fill := none
           line_background := false
           tf := { word_wrap := some true
                   paragraphs := [{ level := 0, space_after := none
                                    alignment := none, runs := [] }] } }] := rfl

/-- C7: `main` builds a 13.333in by 7.5in presentation whose one slide
holds 6 autoshapes (5 rounded-rectangle badges and 1 divider rectangle)
plus 5 textboxes (2 outline boxes and 3 bottom-column boxes), 11 shapes in
total. -/
theorem main_shape_census :
    mainPrs.slide_width = (13333 : ℚ) / 1000 * 914400 ∧
    mainPrs.slide_height = (75 : ℚ) / 10 * 914400 ∧
    mainPrs.slide = mainSlide ∧
    (mainSlide.filter isAutoShape).length = 6 ∧
    (mainSlide.filter isBadge).length = 5 ∧
    (mainSlide.filter
      (fun s => s.kind = ShapeKind.autoShape AutoShapeType.rectangle)).length = 1 ∧
    (mainSlide.filter isTextbox).length = 5 ∧
    mainSlide.length = 11 := by
  refine ⟨by norm_num [mainPrs, slide_width, Inches], by norm_num [mainPrs, slide_height, Inches],
    rfl, ?_, ?_, ?_, ?_, ?_⟩ <;> decide

/-- C8: on a successful save, `main` performs exactly one save effect, at
the fixed hardcoded filename, followed by one confirmation print naming
the file, and exits 0; when the save raises, the failure propagates (exit
status non-zero) and no confirmation is printed. -/
theorem main_save_and_exit :
    out_name = "MobileViT2-Anomaly-Detector-Key-Insights.pptx" ∧
    mainProcess true =
      ([Effect.save "MobileViT2-Anomaly-Detector-Key-Insights.pptx",
        Effect.print "Saved: MobileViT2-Anomaly-Detector-Key-Insights.pptx"], 0) ∧
    ((mainProcess true).1.filter isSave).length = 1 ∧
    (mainProcess false).2 ≠ 0 ∧
    (mainProcess false).1.filter (fun e => !isSave e) = [] := by
  refine ⟨rfl, rfl, rfl, ?_, rfl⟩
  decide

/-- C10: `main` consults no command-line argument, environment variable or
randomness, so any two runs produce the identical presentation and effect
trace. -/
theorem mainRun_deterministic :
    (∀ e₁ e₂ : Env, mainRun e₁ = mainRun e₂) ∧
    (∀ e : Env, mainRun e = (mainPrs, (mainProcess true).1)) :=
  ⟨fun _ _ => rfl, fun _ => rfl⟩


theorem flatRuns_map_subPara (subs : List String) :
    flatRuns (subs.map subPara) = subs.map (fun s => (1, s)) := by
  induction subs with
  | nil => rfl
  | cons a l ih =>
      have h1 : flatRuns (subPara a :: l.map subPara)
          = (1, a) :: flatRuns (l.map subPara) := rfl
      rw [List.map_cons, h1, ih, List.map_cons]

theorem flatRuns_secParas (ttl : String) (subs : List String) :
    flatRuns (titlePara ttl :: subs.map subPara) =
      (0, ttl) :: subs.map (fun s => (1, s)) := by
  have h1 : flatRuns (titlePara ttl :: subs.map subPara)
      = (0, ttl) :: flatRuns (subs.map subPara) := rfl
  rw [h1, flatRuns_map_subPara]

theorem flatRuns_bulletsFlat (sections : List Section) :
    flatRuns (sections.flatMap
        fun sec => titlePara sec.title :: sec.subs.map subPara)
      = sections.flatMap
          fun sec => (0, sec.title) :: sec.subs.map (fun s => (1, s)) := by
  induction sections with
  | nil => rfl
  | cons sec rest ih =>
      rw [List.flatMap_cons, flatRuns_append, flatRuns_secParas,
        List.flatMap_cons, ih]

/-- C4: the outline renderer appends one textbox whose runs are, in
document order, exactly one level-0 run per section (its title) followed
immediately by one level-1 run per sub-item of that section, nothing
skipped or reordered, including sections with no sub-items (and an empty
section list yields no runs at all). -/
theorem add_bullets_outline_order (slide : Slide) (l t w h : ℚ)
    (sections : List Section) :
    add_bullets slide l t w h sections = slide ++ [bulletsBox l t w h sections] ∧
    flatRuns (bulletsBox l t w h sections).tf.paragraphs =
      sections.flatMap
        (fun sec => (0, sec.title) :: sec.subs.map (fun s => (1, s))) := by
  refine ⟨rfl, ?_⟩
  show flatRuns (bulletsParas sections) = _
  match sections with
  | [] => rfl
  | sec :: rest => exact flatRuns_bulletsFlat (sec :: rest)

/-- C6: in the outline renderer, every section-title paragraph (level 0,
carrying a run) has `space_after` 4pt and only bold 18pt runs, and every
sub-item paragraph (level 1) has `space_after` 2pt and only non-bold 14pt
runs. -/
theorem add_bullets_spacing (sections : List Section) (p : Paragraph)
    (hp : p ∈ bulletsParas sections) :
    (p.level = 0 → p.runs ≠ [] →
      p.space_after = some (Pt 4) ∧ ∀ r ∈ p.runs, r.bold = true ∧ r.size = Pt 18) ∧
    (p.level = 1 →
      p.space_after = some (Pt 2) ∧ ∀ r ∈ p.runs, r.bold = false ∧ r.size = Pt 14) := by
  match sections with
  | [] =>
      simp [bulletsParas] at hp
      subst hp
      refine ⟨fun _ hne => absurd rfl hne, fun h0 => ?_⟩
      simp [defaultParagraph] at h0
  | sec :: rest =>
      have hp' : p ∈ (sec :: rest).flatMap
          (fun sec => titlePara sec.title :: sec.subs.map subPara) := hp
      rw [List.mem_flatMap] at hp'
      obtain ⟨s, _, hps⟩ := hp'
      rcases List.mem_cons.mp hps with rfl | hsub
      · refine ⟨fun _ _ => ⟨rfl, ?_⟩, fun h1 => ?_⟩
        · intro r hr
          simp [titlePara, set_run] at hr
          subst hr
          exact ⟨rfl, rfl⟩
        · simp [titlePara] at h1
      · obtain ⟨x, _, rfl⟩ := List.mem_map.mp hsub
        refine ⟨fun h0 _ => ?_, fun _ => ⟨rfl, ?_⟩⟩
        · simp [subPara] at h0
        · intro r hr
          simp [subPara, set_run] at hr
          subst hr
          exact ⟨rfl, rfl⟩

/-- Witness for C6 at a concrete one-section outline. -/
theorem add_bullets_spacing_witness :
    (titlePara "T" ∈ bulletsParas [{ title := "T", subs := ["s"] }]) ∧
    (((titlePara "T").level = 0 → (titlePara "T").runs ≠ [] →
        (titlePara "T").space_after = some (Pt 4) ∧
          ∀ r ∈ (titlePara "T").runs, r.bold = true ∧ r.size = Pt 18) ∧
      ((titlePara "T").level = 1 →
        (titlePara "T").space_after = some (Pt 2) ∧
          ∀ r ∈ (titlePara "T").runs, r.bold = false ∧ r.size = Pt 14)) :=
  ⟨show titlePara "T" ∈ [titlePara "T", subPara "s"] from List.mem_cons_self _ _,
    add_bullets_spacing [{ title := "T", subs := ["s"] }] (titlePara "T")
      (show titlePara "T" ∈ [titlePara "T", subPara "s"] from
        List.mem_cons_self _ _)⟩

theorem bottomColumnShapes_get? (l t W h : ℚ) :
    ∀ (cols : List Column) (i k : ℕ) (hk : k < cols.length),
      (bottomColumnShapes l t W h i cols).get? (2 * k) =
          some (columnBadge l t W (i + k) (cols.get ⟨k, hk⟩)) ∧
        (bottomColumnShapes l t W h i cols).get? (2 * k + 1) =
          some (columnBox l t W h (i + k) (cols.get ⟨k, hk⟩)) := by
  intro cols
  induction cols with
  | nil => intro i k hk; simp at hk
  | cons c rest ih =>
      intro i k hk
      cases k with
      | zero => exact ⟨rfl, rfl⟩
      | succ k' =>
          have hk' : k' < rest.length := Nat.lt_of_succ_lt_succ hk
          have h2 : 2 * (k' + 1) = 2 * k' + 1 + 1 := by ring
          have hik : i + 1 + k' = i + (k' + 1) := by ring
          refine ⟨?_, ?_⟩
          · rw [h2]
            show (bottomColumnShapes l t W h (i + 1) rest).get? (2 * k') = _
            rw [(ih (i + 1) k' hk').1, hik]
            rfl
          · rw [h2]
            show (bottomColumnShapes l t W h (i + 1) rest).get? (2 * k' + 1) = _
            rw [(ih (i + 1) k' hk').2, hik]
            rfl

theorem columnParas_level (items : List String) :
    ∀ p ∈ columnParas items, p.level = 0 := by
  intro p hp
  match items with
  | [] =>
      simp [columnParas] at hp
      subst hp
      rfl
  | it :: rest =>
      have hp' : p ∈ (it :: rest).map itemPara := hp
      obtain ⟨x, _, rfl⟩ := List.mem_map.mp hp'
      rfl

theorem flatRuns_map_itemPara (items : List String) :
    flatRuns (items.map itemPara) = items.map (fun it => (0, "• " ++ it)) := by
  induction items with
  | nil => rfl
  | cons a rest ih =>
      have h1 : flatRuns (itemPara a :: rest.map itemPara)
          = (0, "• " ++ a) :: flatRuns (rest.map itemPara) := rfl
      rw [List.map_cons, h1, ih, List.map_cons]

theorem flatRuns_columnParas (items : List String) :
    flatRuns (columnParas items) = items.map (fun it => (0, "• " ++ it)) := by
  match items with
  | [] => rfl
  | it :: rest => exact flatRuns_map_itemPara (it :: rest)

/-- C3: for every column list, `add_bottom_three_columns` gives each column
an equal-width sub-region of width `(total_width - 2*Inches(0.25))/3` (the
divisor is the constant 3 regardless of the number of columns), offset
`i*(col_w + gap)` from the left with the fixed gap `Inches(0.25)`; column
`k` gets its badge in the top strip of its sub-region (height
`Inches(0.5)`, at the row top) and a textbox below the badge
(`Inches(0.6)` lower) whose items are non-nested (all level 0) bulleted
runs, each prefixed with the bullet glyph. -/
theorem add_bottom_three_columns_layout (l t W h : ℚ) (cols : List Column)
    (k : ℕ) (hk : k < cols.length) :
    (add_bottom_three_columns [] l t W h cols).length = 2 * cols.length ∧
    (add_bottom_three_columns [] l t W h cols).get? (2 * k) =
      some (badgeShape (cols.get ⟨k, hk⟩).badgeLabel
        (l + k * ((W - 2 * Inches 0.25) / 3 + Inches 0.25)) t
        ((W - 2 * Inches 0.25) / 3) (Inches 0.5) (cols.get ⟨k, hk⟩).badgeColor) ∧
    (add_bottom_three_columns [] l t W h cols).get? (2 * k + 1) =
      some { kind := .textbox
             left := l + k * ((W - 2 * Inches 0.25) / 3 + Inches 0.25)
             top := t + Inches 0.6
             width := (W - 2 * Inches 0.25) / 3
             height := h - Inches 0.6
             fill := none
             line_background := false
             tf := { word_wrap := some true
                     paragraphs := columnParas (cols.get ⟨k, hk⟩).items } } ∧
    (∀ p ∈ columnParas (cols.get ⟨k, hk⟩).items, p.level = 0) ∧
    flatRuns (columnParas (cols.get ⟨k, hk⟩).items) =
      (cols.get ⟨k, hk⟩).items.map (fun it => (0, "• " ++ it)) := by
  have hadd : add_bottom_three_columns [] l t W h cols
      = bottomColumnShapes l t W h 0 cols := rfl
  refine ⟨?_, ?_, ?_, columnParas_level _, flatRuns_columnParas _⟩
  · rw [hadd]
    exact bottomColumnShapes_length l t W h cols 0
  · rw [hadd, (bottomColumnShapes_get? l t W h cols 0 k hk).1]
    simp [columnBadge, bottomColW, bottomGap]
  · rw [hadd, (bottomColumnShapes_get? l t W h cols 0 k hk).2]
    simp [columnBox, bottomColW, bottomGap]

/-- Witness for C3 at the second of the three literal bottom columns. -/
theorem add_bottom_three_columns_layout_witness :
    (1 < bottom_cols.length) ∧
    ((add_bottom_three_columns [] 0 0 (Inches 3) (Inches 1.2) bottom_cols).length
        = 2 * bottom_cols.length ∧
      (add_bottom_three_columns [] 0 0 (Inches 3) (Inches 1.2) bottom_cols).get?
          (2 * 1) =
        some (badgeShape (bottom_cols.get ⟨1, by decide⟩).badgeLabel
          (0 + (1 : ℕ) * ((Inches 3 - 2 * Inches 0.25) / 3 + Inches 0.25)) 0
          ((Inches 3 - 2 * Inches 0.25) / 3) (Inches 0.5)
          (bottom_cols.get ⟨1, by decide⟩).badgeColor) ∧
      (add_bottom_three_columns [] 0 0 (Inches 3) (Inches 1.2) bottom_cols).get?
          (2 * 1 + 1) =
        some { kind := .textbox
               left := 0 + (1 : ℕ) * ((Inches 3 - 2 * Inches 0.25) / 3 + Inches 0.25)
               top := 0 + Inches 0.6
               width := (Inches 3 - 2 * Inches 0.25) / 3
               height := Inches 1.2 - Inches 0.6
               fill := none
               line_background := false
               tf := { word_wrap := some true
                       paragraphs :=
                         columnParas (bottom_cols.get ⟨1, by decide⟩).items } } ∧
      (∀ p ∈ columnParas (bottom_cols.get ⟨1, by decide⟩).items, p.level = 0) ∧
      flatRuns (columnParas (bottom_cols.get ⟨1, by decide⟩).items) =
        (bottom_cols.get ⟨1, by decide⟩).items.map (fun it => (0, "• " ++ it))) :=
  ⟨by decide,
    add_bottom_three_columns_layout 0 0 (Inches 3) (Inches 1.2) bottom_cols 1
      (by decide)⟩

/-- Counterexample to C2: at `total_width = 2 * Inches(0.25)` (so the
computed column width is 0) `add_bottom_three_columns` raises nothing — no
InvalidLayout error exists anywhere in the code — and instead silently
draws all six shapes of the three columns with degenerate width 0. -/
theorem add_bottom_three_columns_no_failfast :
    (add_bottom_three_columns [] 0 0 (2 * Inches 0.25) (Inches 1.2) cexCols).length
        = 6 ∧
    ∀ s ∈ add_bottom_three_columns [] 0 0 (2 * Inches 0.25) (Inches 1.2) cexCols,
      s.width = 0 := by
  have hadd : add_bottom_three_columns [] 0 0 (2 * Inches 0.25) (Inches 1.2) cexCols
      = bottomColumnShapes 0 0 (2 * Inches 0.25) (Inches 1.2) 0 cexCols := rfl
  refine ⟨by decide, ?_⟩
  intro s hs
  rw [hadd] at hs
  rw [bottomColumnShapes_width 0 0 (2 * Inches 0.25) (Inches 1.2) cexCols 0 s hs,
    bottomColW]
  norm_num [bottomGap, Inches]

/-- Amended C2: `add_bottom_three_columns` performs no validation; whenever
`total_width ≤ 2 * Inches(0.25)` it computes a non-positive column width
and still draws both shapes of every column, all with that degenerate
(zero or negative) width, instead of failing fast. -/
theorem add_bottom_three_columns_degenerate (l t W h : ℚ) (cols : List Column)
    (hW : W ≤ 2 * Inches 0.25) :
    (add_bottom_three_columns [] l t W h cols).length = 2 * cols.length ∧
    ∀ s ∈ add_bottom_three_columns [] l t W h cols, s.width ≤ 0 := by
  have hadd : add_bottom_three_columns [] l t W h cols
      = bottomColumnShapes l t W h 0 cols := rfl
  rw [hadd]
  refine ⟨bottomColumnShapes_length l t W h cols 0, ?_⟩
  intro s hs
  rw [bottomColumnShapes_width l t W h cols 0 s hs]
  rw [bottomColW]
  apply div_nonpos_of_nonpos_of_nonneg
  · have : bottomGap = Inches 0.25 := rfl
    rw [this]
    linarith
  · norm_num

/-- Witness for the amended C2 at the degenerate width itself. -/
theorem add_bottom_three_columns_degenerate_witness :
    ((2 : ℚ) * Inches 0.25 ≤ 2 * Inches 0.25) ∧
    ((add_bottom_three_columns [] 0 0 (2 * Inches 0.25) (Inches 1.2) cexCols).length
        = 2 * cexCols.length ∧
      ∀ s ∈ add_bottom_three_columns [] 0 0 (2 * Inches 0.25) (Inches 1.2) cexCols,
        s.width ≤ 0) :=
  ⟨le_refl _,
    add_bottom_three_columns_degenerate 0 0 (2 * Inches 0.25) (Inches 1.2) cexCols
      (le_refl _)⟩

/-- C1: for every accepted split (at least one column, nonnegative gap,
total gap smaller than the parent width) the computed sub-regions are equal
width, sum with the `n-1` gaps to exactly the parent width, are pairwise
non-overlapping, and their union spans the parent region; and the code's
two instances of the arithmetic — `col_w = (total_width - 2*gap)/3` with
offsets `i*(col_w + gap)` in `add_bottom_three_columns`, and
`col_width = (slide_width - 2*margin - col_gap)/2` with `left_x`/`right_x`
in `main` — are exactly `splitColumns` at `n = 3` and `n = 2`. -/
theorem splitColumns_partition (left W gap l t W2 h : ℚ) (n : ℕ)
    (cols : List Column)
    (hn : 1 ≤ n) (hg : 0 ≤ gap) (hW : ((n - 1 : ℕ) : ℚ) * gap < W)
    (hcols : cols.length = 3) :
    splitColumnsOk left W n gap ∧
    badgeRects (add_bottom_three_columns [] l t W2 h cols) =
      (splitColumns l W2 3 (Inches 0.25)).map (fun r => (r.x, r.width)) ∧
    [(left_x, col_width), (right_x, col_width)] =
      (splitColumns margin (slide_width - 2 * margin) 2 col_gap).map
        (fun r => (r.x, r.width)) := by
  obtain ⟨m, rfl⟩ : ∃ m, n = m + 1 := ⟨n - 1, (Nat.succ_pred_eq_of_pos hn).symm⟩
  have hsub : ((m + 1 - 1 : ℕ) : ℚ) = (m : ℚ) := by norm_num
  rw [hsub] at hW
  have hnpos : (0 : ℚ) < (m : ℚ) + 1 := by positivity
  have hne : ((m : ℚ) + 1) ≠ 0 := ne_of_gt hnpos
  have hDpos : 0 < (W - (m : ℚ) * gap) / ((m : ℚ) + 1) :=
    div_pos (by linarith) hnpos
  have hkey : ((m : ℚ) + 1) * ((W - (m : ℚ) * gap) / ((m : ℚ) + 1))
      = W - (m : ℚ) * gap := mul_div_cancel₀ _ hne
  have hsplit : splitColumns left W (m + 1) gap
      = (List.range (m + 1)).map
          (fun i : ℕ => Region.mk
            (left + (i : ℚ) * ((W - (m : ℚ) * gap) / ((m : ℚ) + 1) + gap))
            ((W - (m : ℚ) * gap) / ((m : ℚ) + 1))) := by
    simp only [splitColumns, Nat.add_sub_cancel, Nat.cast_add, Nat.cast_one]
  refine ⟨?_, ?_, ?_⟩
  · unfold splitColumnsOk
    refine ⟨?_, ?_, ?_, ?_, ?_, ?_, ?_⟩
    · simp [splitColumns]
    · intro r hr
      rw [hsplit] at hr
      simp only [List.mem_map, List.mem_range] at hr
      obtain ⟨i, hi, rfl⟩ := hr
      push_cast
      norm_num
    · rw [hsplit, List.map_map]
      show ((List.range (m + 1)).map
          (fun _ : ℕ => (W - (m : ℚ) * gap) / ((m : ℚ) + 1))).sum
        + ((m + 1 - 1 : ℕ) : ℚ) * gap = W
      rw [List.map_const', List.length_range, List.sum_replicate, nsmul_eq_mul,
        hsub]
      push_cast
      linarith [hkey]
    · rw [hsplit]
      refine List.Pairwise.map _ ?_ (List.pairwise_lt_range (m + 1))
      intro a b hab
      have hab' : (a : ℚ) + 1 ≤ (b : ℚ) := by exact_mod_cast Nat.succ_le_of_lt hab
      show left + (a : ℚ) * ((W - (m : ℚ) * gap) / ((m : ℚ) + 1) + gap)
            + (W - (m : ℚ) * gap) / ((m : ℚ) + 1)
          ≤ left + (b : ℚ) * ((W - (m : ℚ) * gap) / ((m : ℚ) + 1) + gap)
      nlinarith [mul_le_mul_of_nonneg_right hab'
        (by linarith : (0 : ℚ) ≤ (W - (m : ℚ) * gap) / ((m : ℚ) + 1) + gap)]
    · intro r hr
      rw [hsplit] at hr
      simp only [List.mem_map, List.mem_range] at hr
      obtain ⟨i, hi, rfl⟩ := hr
      have hi0 : (0 : ℚ) ≤ (i : ℚ) := Nat.cast_nonneg i
      have him : (i : ℚ) ≤ (m : ℚ) := by exact_mod_cast Nat.lt_succ_iff.mp hi
      constructor
      · show left
            ≤ left + (i : ℚ) * ((W - (m : ℚ) * gap) / ((m : ℚ) + 1) + gap)
        nlinarith [mul_nonneg hi0
          (by linarith : (0 : ℚ) ≤ (W - (m : ℚ) * gap) / ((m : ℚ) + 1) + gap)]
      · show left + (i : ℚ) * ((W - (m : ℚ) * gap) / ((m : ℚ) + 1) + gap)
            + (W - (m : ℚ) * gap) / ((m : ℚ) + 1) ≤ left + W
        nlinarith [hkey, mul_le_mul_of_nonneg_right him
          (by linarith : (0 : ℚ) ≤ (W - (m : ℚ) * gap) / ((m : ℚ) + 1) + gap)]
    · rw [hsplit]
      refine ⟨_, List.mem_map_of_mem _ (List.mem_range.mpr (Nat.succ_pos m)), ?_⟩
      show left + ((0 : ℕ) : ℚ) * ((W - (m : ℚ) * gap) / ((m : ℚ) + 1) + gap)
          = left
      norm_num
    · rw [hsplit]
      refine ⟨_, List.mem_map_of_mem _ (List.mem_range.mpr (Nat.lt_succ_self m)), ?_⟩
      show left + (m : ℚ) * ((W - (m : ℚ) * gap) / ((m : ℚ) + 1) + gap)
            + (W - (m : ℚ) * gap) / ((m : ℚ) + 1) = left + W
      linarith [hkey]
  · rcases cols with _ | ⟨a, _ | ⟨b, _ | ⟨c, tail⟩⟩⟩ <;> simp at hcols
    rcases tail with _ | ⟨d, rest⟩
    · norm_num [add_bottom_three_columns, bottomColumnShapes, badgeRects,
        List.filter, columnBadge, columnBox, badgeShape, isBadge, bottomColW,
        bottomGap, splitColumns, List.range_succ]
    · simp at hcols
  · norm_num [splitColumns, List.range_succ, left_x, right_x, col_width, margin,
      col_gap, slide_width, Inches]

/-- Witness for C1 at a 3-way split of width 10 with gap 1, the bottom
columns of `main`, and the two code instances. -/
theorem splitColumns_partition_witness :
    ((1 : ℕ) ≤ 3 ∧ (0 : ℚ) ≤ 1 ∧ ((3 - 1 : ℕ) : ℚ) * 1 < 10 ∧
      bottom_cols.length = 3) ∧
    (splitColumnsOk 0 10 3 1 ∧
      badgeRects (add_bottom_three_columns [] 0 0 10 2 bottom_cols) =
        (splitColumns 0 10 3 (Inches 0.25)).map (fun r => (r.x, r.width)) ∧
      [(left_x, col_width), (right_x, col_width)] =
        (splitColumns margin (slide_width - 2 * margin) 2 col_gap).map
          (fun r => (r.x, r.width))) :=
  ⟨⟨by norm_num, by norm_num, by norm_num, by decide⟩,
    splitColumns_partition 0 10 1 0 0 10 2 3 bottom_cols
      (by norm_num) (by norm_num) (by norm_num) (by decide)⟩
